import Mathlib

/-!
Verification development for the pixel-coordinate mapping subsystem of an
LED-panel display driver (source: `lib/pixel-mapper.cc`).

The C++ code is shallowly embedded as follows:

* C `int` values become `Int`.  C integer division and remainder truncate
  toward zero, which is `Int.tdiv` / `Int.tmod`; a division or remainder by
  zero is undefined behaviour in C, so every division the code performs is
  modelled through `cdiv` / `cmod`, which return `none` on a zero divisor.
  Consequently every `MapVisibleToMatrix` model returns `Option (Int × Int)`:
  `none` means the C code has undefined behaviour on that input (division by
  zero, or a `switch` that assigns neither output).
* `std::map<int,int>` members (`panels_`) are modelled as association lists
  with insert-or-replace (`assocInsert`) and lookup (`assocFind`); only
  lookup is observable in the code under study, so iteration order of the
  ordered C++ map is irrelevant.
* `strtok_r` tokenisation is modelled on `List Char`: splitting at a
  delimiter and dropping empty tokens (`strtok_r` never yields an empty
  token, and skips runs of delimiters).
* `atoi` applied to an all-digit token is modelled by `digitsToNat`.
* Function-local `static const` variables (the cached panel sizes inside
  `RotatePanelPixelMapper::MapVisibleToMatrix` and
  `ReorderPixelMapper::MapVisibleToMatrix`) are modelled by threading the
  cache explicitly: `MapVisibleToMatrixStatics` takes the cache left by the
  previous call (`none` before the first call) and returns the new cache.
  `MapVisibleToMatrix` is the first-call instance, in which the cache is
  computed from the current call's arguments.
-/

/-- C truncating integer division, undefined (`none`) on a zero divisor. -/
def cdiv (a b : Int) : Option Int :=
  if b = 0 then none else some (a.tdiv b)

/-- C truncating remainder, undefined (`none`) on a zero divisor. -/
def cmod (a b : Int) : Option Int :=
  if b = 0 then none else some (a.tmod b)

/-- Insert-or-replace for an association list, the observable behaviour of
`std::map::operator[]` followed by assignment. -/
def assocInsert {α β : Type} [DecidableEq α] : List (α × β) → α → β → List (α × β)
  | [], k, v => [(k, v)]
  | (k0, v0) :: rest, k, v =>
    if k = k0 then (k, v) :: rest else (k0, v0) :: assocInsert rest k v

/-- Lookup in an association list, the observable behaviour of
`std::map::count` / `std::map::at`. -/
def assocFind {α β : Type} [DecidableEq α] : List (α × β) → α → Option β
  | [], _ => none
  | (k0, v0) :: rest, k => if k = k0 then some v0 else assocFind rest k

/-- Split a character list at a delimiter (keeping empty pieces). -/
def splitOnAux (d : Char) : List Char → List Char → List (List Char)
  | [], acc => [acc.reverse]
  | c :: rest, acc =>
    if c = d then acc.reverse :: splitOnAux d rest []
    else splitOnAux d rest (c :: acc)

/-- Tokens of a string for delimiter `d`, as produced by repeated
`strtok_r`: maximal non-empty pieces between delimiter characters. -/
def tokensOf (d : Char) (cs : List Char) : List (List Char) :=
  (splitOnAux d cs []).filter (fun t => t ≠ [])

/-- Numeric value of an all-digit token, as computed by `atoi`. -/
def digitsToNat (cs : List Char) : Nat :=
  cs.foldl (fun n c => 10 * n + (c.toNat - 48)) 0

/-- Numeric value of an all-digit token as a C `int`. -/
def atoiDigits (cs : List Char) : Int :=
  (digitsToNat cs : Int)

/-! ## RotatePixelMapper (whole-display rotation, name "Rotate") -/

/-- RotatePixelMapper::GetSizeMapping: swaps width and height when the
stored angle is 90 or 270. -/
def RotatePixelMapper.GetSizeMapping (angle w h : Int) : Int × Int :=
  if angle.tmod 180 = 0 then (w, h) else (h, w)

/-- RotatePixelMapper::MapVisibleToMatrix: the four-case rotation switch.
`SetParameters` normalises the stored angle into {0,90,180,270}; an angle
outside that set matches no case and leaves the outputs unassigned
(modelled as `none`). -/
def RotatePixelMapper.MapVisibleToMatrix (angle w h x y : Int) : Option (Int × Int) :=
  if angle = 0 then some (x, y)
  else if angle = 90 then some (w - y - 1, x)
  else if angle = 180 then some (w - x - 1, h - y - 1)
  else if angle = 270 then some (y, h - x - 1)
  else none

/-- C3: for θ ∈ {90, 180, 270}, applying the Rotate mapper with angle θ on a
w×h matrix and then the Rotate mapper with angle 360−θ — whose matrix
dimensions are the visible dimensions of the first — returns every in-range
visible coordinate to its original value. -/
theorem claim_C3 (θ w h x y : Int) (hθ : θ = 90 ∨ θ = 180 ∨ θ = 270)
    (hx0 : 0 ≤ x) (hxlt : x < (RotatePixelMapper.GetSizeMapping θ w h).1)
    (hy0 : 0 ≤ y) (hylt : y < (RotatePixelMapper.GetSizeMapping θ w h).2) :
    (RotatePixelMapper.MapVisibleToMatrix θ w h x y).bind
      (fun p => RotatePixelMapper.MapVisibleToMatrix (360 - θ)
        (RotatePixelMapper.GetSizeMapping θ w h).1
        (RotatePixelMapper.GetSizeMapping θ w h).2 p.1 p.2)
      = some (x, y) := by
  have e90 : ∀ w h : Int, RotatePixelMapper.GetSizeMapping 90 w h = (h, w) := by
    intro w h
    unfold RotatePixelMapper.GetSizeMapping
    rw [if_neg (by decide)]
  have e180 : ∀ w h : Int, RotatePixelMapper.GetSizeMapping 180 w h = (w, h) := by
    intro w h
    unfold RotatePixelMapper.GetSizeMapping
    rw [if_pos (by decide)]
  have e270 : ∀ w h : Int, RotatePixelMapper.GetSizeMapping 270 w h = (h, w) := by
    intro w h
    unfold RotatePixelMapper.GetSizeMapping
    rw [if_neg (by decide)]
  rcases hθ with hθ | hθ | hθ <;> subst hθ
  · rw [e90]
    norm_num [RotatePixelMapper.MapVisibleToMatrix, Option.some_bind, Prod.ext_iff]
    omega
  · rw [e180]
    norm_num [RotatePixelMapper.MapVisibleToMatrix, Option.some_bind, Prod.ext_iff]
    omega
  · rw [e270]
    norm_num [RotatePixelMapper.MapVisibleToMatrix, Option.some_bind, Prod.ext_iff]
    omega

/-- Witness for C3: the round trip at θ = 90 on a 4×2 matrix, visible
coordinate (1, 3). -/
theorem claim_C3_witness :
    (RotatePixelMapper.MapVisibleToMatrix 90 4 2 1 3).bind
      (fun p => RotatePixelMapper.MapVisibleToMatrix (360 - 90)
        (RotatePixelMapper.GetSizeMapping 90 4 2).1
        (RotatePixelMapper.GetSizeMapping 90 4 2).2 p.1 p.2)
      = some (1, 3) :=
  claim_C3 90 4 2 1 3 (Or.inl rfl) (by decide) (by decide) (by decide) (by decide)

/-! ## RowArrangementMapper (name "Row-mapper") -/

/-- Mode of the row-arrangement mapper. -/
inductive RowMode where
  | normal
  | band_horizontal
  | band_vertical
deriving DecidableEq, Repr

/-- Configured state of `RowArrangementMapper`. -/
structure RowArrangementMapper where
  chain_ : Int
  parallel_ : Int
  mode_ : RowMode
deriving DecidableEq, Repr

/-- RowArrangementMapper::SetParameters.  Fails (`none`) when
`parallel < 2`.  A `NULL` or empty parameter selects `normal`; a string of
length ≠ 1 prints a diagnostic but proceeds with `normal` and succeeds; a
single character selects the band mode for V/v/H/h and fails for anything
else. -/
def RowArrangementMapper.SetParameters (chain parallel : Int)
    (param : Option String) : Option RowArrangementMapper :=
  if parallel < 2 then none
  else
    match param with
    | none => some ⟨chain, parallel, RowMode.normal⟩
    | some s =>
      match s.data with
      | [] => some ⟨chain, parallel, RowMode.normal⟩
      | [c] =>
        if c = 'V' ∨ c = 'v' then some ⟨chain, parallel, RowMode.band_vertical⟩
        else if c = 'H' ∨ c = 'h' then some ⟨chain, parallel, RowMode.band_horizontal⟩
        else none
      | _ :: _ :: _ => some ⟨chain, parallel, RowMode.normal⟩

/-- RowArrangementMapper::GetSizeMapping.  `panel_width = w / chain_` is
computed before the mode switch, so the division by `chain_` happens in
every mode. -/
def RowArrangementMapper.GetSizeMapping (st : RowArrangementMapper)
    (w h : Int) : Option (Int × Int) := do
  let panel_width ← cdiv w st.chain_
  match st.mode_ with
  | RowMode.normal => do
    let vh ← cdiv h st.parallel_
    pure (w * st.parallel_, vh)
  | RowMode.band_vertical => do
    let vh ← cdiv h st.parallel_
    pure (w * st.parallel_ - panel_width * 2, vh)
  | RowMode.band_horizontal => do
    let vh ← cdiv h st.parallel_
    pure (w * st.parallel_ - panel_width * 2, vh)

/-- C7 counterexample: the multi-character parameter "XY" is accepted by
Row-mapper's SetParameters (it prints a diagnostic but returns true with
mode `normal`), contradicting the claim that any multi-character string
reports a configuration error. -/
theorem claim_C7_counterexample :
    RowArrangementMapper.SetParameters 1 2 (some "XY")
        = some ⟨1, 2, RowMode.normal⟩ ∧
      RowArrangementMapper.SetParameters 1 2 (some "XY") ≠ none := by
  constructor
  · rfl
  · decide

/-- C7 (amended): given `parallel ≥ 2`, Row-mapper's SetParameters fails
exactly on a single-character parameter other than V, v, H, h; the empty or
`NULL` parameter, the four accepted letters, and every multi-character
string succeed (a multi-character string only prints a diagnostic and
leaves the mode at `normal`). -/
theorem claim_C7 (chain parallel : Int) (param : Option String)
    (hp : ¬ parallel < 2) :
    RowArrangementMapper.SetParameters chain parallel param = none ↔
      ∃ c : Char, Option.map String.data param = some [c] ∧
        c ≠ 'V' ∧ c ≠ 'v' ∧ c ≠ 'H' ∧ c ≠ 'h' := by
  unfold RowArrangementMapper.SetParameters
  rw [if_neg hp]
  cases param with
  | none => simp
  | some s =>
    obtain ⟨cs⟩ := s
    show (match cs with
      | [] => some (RowArrangementMapper.mk chain parallel RowMode.normal)
      | [c] =>
        if c = 'V' ∨ c = 'v' then
          some (RowArrangementMapper.mk chain parallel RowMode.band_vertical)
        else if c = 'H' ∨ c = 'h' then
          some (RowArrangementMapper.mk chain parallel RowMode.band_horizontal)
        else none
      | _ :: _ :: _ => some (RowArrangementMapper.mk chain parallel RowMode.normal)) = none ↔
      ∃ c : Char, some cs = some [c] ∧ c ≠ 'V' ∧ c ≠ 'v' ∧ c ≠ 'H' ∧ c ≠ 'h'
    cases cs with
    | nil => simp
    | cons c rest =>
      cases rest with
      | nil =>
        simp only [Option.some.injEq]
        constructor
        · intro hnone
          refine ⟨c, rfl, ?_, ?_, ?_, ?_⟩ <;>
            first
            | (intro hc
               subst hc
               simp at hnone)
        · rintro ⟨c0, hc0, h1, h2, h3, h4⟩
          obtain rfl : c = c0 := by simpa using hc0
          simp [h1, h2, h3, h4]
      | cons c2 rest2 => simp

/-- Witness for C7: the single character "X" is rejected, obtained by
applying the amended characterisation at parallel = 2. -/
theorem claim_C7_witness :
    RowArrangementMapper.SetParameters 1 2 (some "X") = none :=
  (claim_C7 1 2 (some "X") (by decide)).mpr ⟨'X', by decide, by decide, by decide, by decide, by decide⟩

/-- C8: Row-mapper's GetSizeMapping returns `visible_height = h / parallel`
in every mode, `visible_width = w · parallel` in normal mode and
`w · parallel − 2 · panel_width` (with `panel_width = w / chain`) in both
banded modes; concretely, with parallel = 3, normal mode, w = 192, h = 32
it returns (576, 10). -/
theorem claim_C8 (st : RowArrangementMapper) (w h : Int)
    (hc : st.chain_ ≠ 0) (hp : st.parallel_ ≠ 0) :
    (RowArrangementMapper.GetSizeMapping st w h =
      some ((if st.mode_ = RowMode.normal then w * st.parallel_
             else w * st.parallel_ - 2 * (w.tdiv st.chain_)),
            h.tdiv st.parallel_)) ∧
      RowArrangementMapper.SetParameters 6 3 none
        = some ⟨6, 3, RowMode.normal⟩ ∧
      RowArrangementMapper.GetSizeMapping ⟨6, 3, RowMode.normal⟩ 192 32
        = some (576, 10) := by
  refine ⟨?_, by decide, by decide⟩
  unfold RowArrangementMapper.GetSizeMapping cdiv
  rw [if_neg hc, if_neg hp]
  cases hm : st.mode_ <;>
    simp [hm, Option.some_bind] <;>
    ring

/-- Witness for C8: a band-vertical configuration with chain = 2,
parallel = 3, on a 192×32 matrix (panel width 96): visible size
(576 − 192, 10). -/
theorem claim_C8_witness :
    (RowArrangementMapper.GetSizeMapping ⟨2, 3, RowMode.band_vertical⟩ 192 32 =
      some ((if RowMode.band_vertical = RowMode.normal then 192 * 3
             else 192 * 3 - 2 * (Int.tdiv 192 2)), Int.tdiv 32 3)) ∧
      RowArrangementMapper.SetParameters 6 3 none
        = some ⟨6, 3, RowMode.normal⟩ ∧
      RowArrangementMapper.GetSizeMapping ⟨6, 3, RowMode.normal⟩ 192 32
        = some (576, 10) :=
  claim_C8 ⟨2, 3, RowMode.band_vertical⟩ 192 32 (by decide) (by decide)

/-! ## RotatePanelPixelMapper (name "Rotate-panel") -/

/-- Configured state of `RotatePanelPixelMapper`: topology plus the parsed
panel-index → angle table. -/
structure RotatePanelPixelMapper where
  chain_ : Int
  parallel_ : Int
  panels_ : List (Int × Int)
deriving DecidableEq, Repr

/-- Inner `strtok_r` loop of RotatePanelPixelMapper::SetParameters over the
"|"-separated sub-tokens of one ","-token.  `i` alternates between panel
index (even) and angle (odd).  A sub-token with a non-digit character, or
an out-of-range panel index, breaks out of the loop for this token; an
angle that is not a multiple of 90 is reported and skipped; an accepted
angle is stored un-normalised via `panels_[panel_index] = panel_angle`. -/
def RotatePanelPixelMapper.processSubtokens (panel_count : Int) :
    List (List Char) → Nat → Int → List (Int × Int) → List (Int × Int)
  | [], _, _, panels => panels
  | t :: rest, i, panel_index, panels =>
    if t.all Char.isDigit then
      if i % 2 = 0 then
        let v := atoiDigits t
        if v > panel_count - 1 then panels
        else RotatePanelPixelMapper.processSubtokens panel_count rest (i + 1) v panels
      else
        let a := atoiDigits t
        if a.tmod 90 ≠ 0 then
          RotatePanelPixelMapper.processSubtokens panel_count rest (i + 1) panel_index panels
        else
          RotatePanelPixelMapper.processSubtokens panel_count rest (i + 1) panel_index
            (assocInsert panels panel_index a)
    else panels

/-- Processing of one ","-token of the Rotate-panel parameter string. -/
def RotatePanelPixelMapper.processToken (panel_count : Int)
    (panels : List (Int × Int)) (tok : List Char) : List (Int × Int) :=
  RotatePanelPixelMapper.processSubtokens panel_count (tokensOf '|' tok) 0 0 panels

/-- The whole Rotate-panel parameter parse: a fold of `processToken` over
the ","-tokens, starting from the empty map. -/
def RotatePanelPixelMapper.parseParam (panel_count : Int)
    (toks : List (List Char)) : List (Int × Int) :=
  toks.foldl (RotatePanelPixelMapper.processToken panel_count) []

/-- RotatePanelPixelMapper::SetParameters: stores chain and parallel,
parses a non-NULL parameter string permissively, and always returns
true. -/
def RotatePanelPixelMapper.SetParameters (chain parallel : Int)
    (param : Option String) : Bool × RotatePanelPixelMapper :=
  let panels :=
    match param with
    | none => []
    | some s =>
      RotatePanelPixelMapper.parseParam (chain * parallel) (tokensOf ',' s.data)
  (true, ⟨chain, parallel, panels⟩)

/-- RotatePanelPixelMapper::GetSizeMapping: identity on the matrix size. -/
def RotatePanelPixelMapper.GetSizeMapping (w h : Int) : Int × Int := (w, h)

/-- RotatePanelPixelMapper::MapVisibleToMatrix for a given panel size
(`panel_cols_`, `panel_rows_` — in the C code these are function-local
`static const`, see `MapVisibleToMatrixStatics`).  A stored angle outside
{0, 90, 180, 270} matches no switch case and leaves both outputs
unassigned (`none`). -/
def RotatePanelPixelMapper.MapVisibleToMatrixCached (panel_cols panel_rows : Int)
    (st : RotatePanelPixelMapper) (x y : Int) : Option (Int × Int) := do
  let panel_x_nr ← cdiv x panel_cols
  let panel_y_nr ← cdiv y panel_rows
  let panel_nr := panel_y_nr * st.chain_ + panel_x_nr
  match assocFind st.panels_ panel_nr with
  | some angle => do
    let panel_x ← if panel_x_nr = 0 then pure x else cmod x (panel_x_nr * panel_cols)
    let panel_y ← if panel_y_nr = 0 then pure y else cmod y (panel_y_nr * panel_rows)
    if angle = 0 then pure (x, y)
    else if angle = 90 then
      pure (panel_x_nr * panel_cols + (panel_cols - panel_y - 1),
            panel_y_nr * panel_rows + panel_x)
    else if angle = 180 then
      pure (panel_x_nr * panel_cols + (panel_rows - panel_x - 1),
            panel_y_nr * panel_rows + (panel_cols - panel_y - 1))
    else if angle = 270 then
      pure (panel_x_nr * panel_cols + panel_y,
            panel_y_nr * panel_rows + (panel_rows - panel_x - 1))
    else none
  | none => pure (x, y)

/-- RotatePanelPixelMapper::MapVisibleToMatrix with the function-local
`static const` panel size made explicit: `cache` is the panel size frozen
by the first call (`none` before any call); the returned pair carries the
output coordinate and the cache left for subsequent calls. -/
def RotatePanelPixelMapper.MapVisibleToMatrixStatics (cache : Option (Int × Int))
    (st : RotatePanelPixelMapper) (w h x y : Int) :
    Option ((Int × Int) × (Int × Int)) := do
  let c ← match cache with
    | some c => pure c
    | none => do
      let pc ← cdiv w st.chain_
      let pr ← cdiv h st.parallel_
      pure (pc, pr)
  let out ← RotatePanelPixelMapper.MapVisibleToMatrixCached c.1 c.2 st x y
  pure (out, c)

/-- RotatePanelPixelMapper::MapVisibleToMatrix on its first call, where the
panel size is computed from the current call's matrix dimensions. -/
def RotatePanelPixelMapper.MapVisibleToMatrix (st : RotatePanelPixelMapper)
    (w h x y : Int) : Option (Int × Int) := do
  let pc ← cdiv w st.chain_
  let pr ← cdiv h st.parallel_
  RotatePanelPixelMapper.MapVisibleToMatrixCached pc pr st x y

/-! ## ReorderPixelMapper (name "Reorder") -/

/-- Configured state of `ReorderPixelMapper`: topology plus the parsed
from-index → to-index table. -/
structure ReorderPixelMapper where
  chain_ : Int
  parallel_ : Int
  panels_ : List (Int × Int)
deriving DecidableEq, Repr

/-- Inner `strtok_r` loop of ReorderPixelMapper::SetParameters over the
"|"-separated sub-tokens of one ","-token.  `i` alternates between from
index (even) and to index (odd); both are bounds-checked against
`panel_count`; a non-digit character or an out-of-range index breaks out of
the loop for this token. -/
def ReorderPixelMapper.processSubtokens (panel_count : Int) :
    List (List Char) → Nat → Int → List (Int × Int) → List (Int × Int)
  | [], _, _, panels => panels
  | t :: rest, i, panel_index_from, panels =>
    if t.all Char.isDigit then
      if i % 2 = 0 then
        let v := atoiDigits t
        if v > panel_count - 1 then panels
        else ReorderPixelMapper.processSubtokens panel_count rest (i + 1) v panels
      else
        let v := atoiDigits t
        if v > panel_count - 1 then panels
        else
          ReorderPixelMapper.processSubtokens panel_count rest (i + 1) panel_index_from
            (assocInsert panels panel_index_from v)
    else panels

/-- Processing of one ","-token of the Reorder parameter string. -/
def ReorderPixelMapper.processToken (panel_count : Int)
    (panels : List (Int × Int)) (tok : List Char) : List (Int × Int) :=
  ReorderPixelMapper.processSubtokens panel_count (tokensOf '|' tok) 0 0 panels

/-- The whole Reorder parameter parse: a fold of `processToken` over the
","-tokens, starting from the empty map. -/
def ReorderPixelMapper.parseParam (panel_count : Int)
    (toks : List (List Char)) : List (Int × Int) :=
  toks.foldl (ReorderPixelMapper.processToken panel_count) []

/-- ReorderPixelMapper::SetParameters: stores chain and parallel, parses a
non-NULL parameter string permissively, and always returns true.  No
topology validation is performed (in particular parallel = 1 is
accepted). -/
def ReorderPixelMapper.SetParameters (chain parallel : Int)
    (param : Option String) : Bool × ReorderPixelMapper :=
  let panels :=
    match param with
    | none => []
    | some s =>
      ReorderPixelMapper.parseParam (chain * parallel) (tokensOf ',' s.data)
  (true, ⟨chain, parallel, panels⟩)

/-- ReorderPixelMapper::GetSizeMapping: identity on the matrix size. -/
def ReorderPixelMapper.GetSizeMapping (w h : Int) : Int × Int := (w, h)

/-- ReorderPixelMapper::MapVisibleToMatrix for a given panel size
(`panel_cols_`, `panel_rows_` — function-local `static const` in the C
code).  On a remapped panel the destination panel position is decomposed
as `panel_to_index mod (parallel_ − 1)` / `panel_to_index / (parallel_ − 1)`,
both undefined (`none`) when `parallel_ = 1`. -/
def ReorderPixelMapper.MapVisibleToMatrixCached (panel_cols panel_rows : Int)
    (st : ReorderPixelMapper) (x y : Int) : Option (Int × Int) := do
  let panel_from_x_index ← cdiv x panel_cols
  let panel_from_y_index ← cdiv y panel_rows
  let panel_from_index := panel_from_y_index * st.chain_ + panel_from_x_index
  match assocFind st.panels_ panel_from_index with
  | some panel_to_index => do
    let panel_to_x_index ← cmod panel_to_index (st.parallel_ - 1)
    let panel_to_y_index ← cdiv panel_to_index (st.parallel_ - 1)
    let panel_x ←
      if panel_from_x_index = 0 then pure x
      else cmod x (panel_from_x_index * panel_cols)
    let panel_y ←
      if panel_from_y_index = 0 then pure y
      else cmod y (panel_from_y_index * panel_rows)
    pure (panel_to_x_index * panel_cols + panel_x,
          panel_to_y_index * panel_rows + panel_y)
  | none => pure (x, y)

/-- ReorderPixelMapper::MapVisibleToMatrix with the function-local
`static const` panel size made explicit, as for Rotate-panel. -/
def ReorderPixelMapper.MapVisibleToMatrixStatics (cache : Option (Int × Int))
    (st : ReorderPixelMapper) (w h x y : Int) :
    Option ((Int × Int) × (Int × Int)) := do
  let c ← match cache with
    | some c => pure c
    | none => do
      let pc ← cdiv w st.chain_
      let pr ← cdiv h st.parallel_
      pure (pc, pr)
  let out ← ReorderPixelMapper.MapVisibleToMatrixCached c.1 c.2 st x y
  pure (out, c)

/-- ReorderPixelMapper::MapVisibleToMatrix on its first call, where the
panel size is computed from the current call's matrix dimensions. -/
def ReorderPixelMapper.MapVisibleToMatrix (st : ReorderPixelMapper)
    (w h x y : Int) : Option (Int × Int) := do
  let pc ← cdiv w st.chain_
  let pr ← cdiv h st.parallel_
  ReorderPixelMapper.MapVisibleToMatrixCached pc pr st x y

/-! ## Registry -/

/-- Lower-casing of a name, character by character (`tolower` per char). -/
def toLowerStr (s : String) : String :=
  String.mk (s.data.map Char.toLower)

/-- RegisterPixelMapperInternal: inserts a mapper under its lower-cased
name (the mapper instance is represented by its name string). -/
def RegisterPixelMapperInternal (registry : List (String × String))
    (name : String) : List (String × String) :=
  assocInsert registry (toLowerStr name) name

/-- CreateMapperMap: registers the seven default mappers. -/
def CreateMapperMap : List (String × String) :=
  ["Row-mapper", "Rotate-panel", "Reorder", "Rotate", "U-mapper", "V-mapper",
    "Mirror"].foldl RegisterPixelMapperInternal []

/-- FindPixelMapper, name-resolution part: lower-cases the query and looks
it up in the registry; `none` (a returned NULL, not an exception) when the
name is unknown.  On a hit the C function then calls the resolved mapper's
SetParameters with the supplied topology and parameter. -/
def FindPixelMapper (name : String) : Option String :=
  assocFind CreateMapperMap (toLowerStr name)

/-- C9: registry lookup is case-insensitive — "ROW-MAPPER" and "row-mapper"
resolve to the same Row-mapper instance — and looking up the unknown name
"no-such-mapper" fails by returning no mapper. -/
theorem claim_C9 :
    FindPixelMapper "ROW-MAPPER" = some "Row-mapper" ∧
      FindPixelMapper "row-mapper" = some "Row-mapper" ∧
      FindPixelMapper "ROW-MAPPER" = FindPixelMapper "row-mapper" ∧
      FindPixelMapper "no-such-mapper" = none := by
  refine ⟨?_, ?_, ?_, ?_⟩ <;> decide

/-- C1: refuted by evaluation.  The range invariant fails for the
registered Reorder mapper: with chain = 2, parallel = 2 the parameter
"0|3" is accepted by SetParameters, the 2×2 matrix is an exact multiple of
the 1×1 panel grid, GetSizeMapping reports visible size 2×2, yet
MapVisibleToMatrix sends visible (0, 0) to (0, 3), whose y-coordinate is
not below matrix_height = 2 (the destination row is computed as
panel_to_index / (parallel − 1) = 3). -/
theorem claim_C1 :
    ReorderPixelMapper.SetParameters 2 2 (some "0|3")
        = (true, ⟨2, 2, [(0, 3)]⟩) ∧
      ReorderPixelMapper.GetSizeMapping 2 2 = (2, 2) ∧
      ReorderPixelMapper.MapVisibleToMatrix ⟨2, 2, [(0, 3)]⟩ 2 2 0 0
        = some (0, 3) ∧
      ¬ ((3 : Int) < 2) := by
  refine ⟨?_, ?_, ?_, ?_⟩ <;> decide

/-- C2: refuted by evaluation.  SetParameters accepts the token "0|360"
(360 is a multiple of 90) but stores the angle un-normalised as 360; the
rotation switch in MapVisibleToMatrix then matches none of its four cases
for panel 0 and leaves both outputs unassigned (undefined behaviour,
modelled as `none`), instead of the claimed normalised rotation 0. -/
theorem claim_C2 :
    RotatePanelPixelMapper.SetParameters 1 1 (some "0|360")
        = (true, ⟨1, 1, [(0, 360)]⟩) ∧
      RotatePanelPixelMapper.MapVisibleToMatrix ⟨1, 1, [(0, 360)]⟩ 1 1 0 0
        = none := by
  refine ⟨?_, ?_⟩ <;> decide

/-- C4: refuted by evaluation.  The panel size inside Rotate-panel's
MapVisibleToMatrix is a function-local `static const`, frozen on the first
call: after a first call with a 4×4 matrix, a call with a 2×2 matrix at
(0, 0) still uses panel size 4×4 and returns (3, 0), while the same call
with no earlier call (panel size computed from the current arguments)
returns (1, 0).  So the output is not a function of the current call's
arguments and the configured state alone. -/
theorem claim_C4 :
    RotatePanelPixelMapper.SetParameters 1 1 (some "0|90")
        = (true, ⟨1, 1, [(0, 90)]⟩) ∧
      RotatePanelPixelMapper.MapVisibleToMatrixStatics none
          ⟨1, 1, [(0, 90)]⟩ 4 4 0 0 = some ((3, 0), (4, 4)) ∧
      RotatePanelPixelMapper.MapVisibleToMatrixStatics (some (4, 4))
          ⟨1, 1, [(0, 90)]⟩ 2 2 0 0 = some ((3, 0), (4, 4)) ∧
      RotatePanelPixelMapper.MapVisibleToMatrixStatics none
          ⟨1, 1, [(0, 90)]⟩ 2 2 0 0 = some ((1, 0), (2, 2)) ∧
      ((3, 0) : Int × Int) ≠ (1, 0) := by
  refine ⟨?_, ?_, ?_, ?_, ?_⟩ <;> decide

/-- C10: Reorder configured with an empty (or NULL) parameter string has an
empty reorder table and MapVisibleToMatrix is the identity: for every
topology (non-zero chain and parallel, matrix dimensions giving a non-zero
panel size) and every visible (x, y) it returns (x, y) unchanged. -/
theorem claim_C10 (chain parallel w h x y : Int)
    (hc : chain ≠ 0) (hp : parallel ≠ 0)
    (hpc : w.tdiv chain ≠ 0) (hpr : h.tdiv parallel ≠ 0) :
    ReorderPixelMapper.SetParameters chain parallel (some "")
        = (true, ⟨chain, parallel, []⟩) ∧
      ReorderPixelMapper.SetParameters chain parallel none
        = (true, ⟨chain, parallel, []⟩) ∧
      ReorderPixelMapper.MapVisibleToMatrix ⟨chain, parallel, []⟩ w h x y
        = some (x, y) := by
  refine ⟨rfl, rfl, ?_⟩
  simp [ReorderPixelMapper.MapVisibleToMatrix,
    ReorderPixelMapper.MapVisibleToMatrixCached, cdiv, hc, hp, hpc, hpr, assocFind]

/-- Witness for C10: chain = parallel = 2 on a 2×2 matrix, visible (1, 0)
maps to (1, 0). -/
theorem claim_C10_witness :
    ReorderPixelMapper.SetParameters 2 2 (some "")
        = (true, ⟨2, 2, []⟩) ∧
      ReorderPixelMapper.SetParameters 2 2 none
        = (true, ⟨2, 2, []⟩) ∧
      ReorderPixelMapper.MapVisibleToMatrix ⟨2, 2, []⟩ 2 2 1 0
        = some (1, 0) :=
  claim_C10 2 2 2 2 1 0 (by decide) (by decide) (by decide) (by decide)

/-- C5: Reorder's SetParameters accepts chain = 2, parallel = 1 with the
pair "0|1" without any topology validation; MapVisibleToMatrix then
evaluates `panel_to_index mod (parallel−1)` and
`panel_to_index / (parallel−1)` — a modulo and division by zero — for
every pixel on the remapped panel 0 (undefined, `none`); and the
decomposition is well-defined (the map is total) under the unstated
precondition parallel ≥ 2. -/
theorem claim_C5 :
    (ReorderPixelMapper.SetParameters 2 1 (some "0|1")
        = (true, ⟨2, 1, [(0, 1)]⟩)) ∧
      (∀ w h x y : Int, w.tdiv 2 ≠ 0 → h ≠ 0 →
        x.tdiv (w.tdiv 2) = 0 → y.tdiv h = 0 →
        ReorderPixelMapper.MapVisibleToMatrix ⟨2, 1, [(0, 1)]⟩ w h x y = none) ∧
      (∀ (st : ReorderPixelMapper) (w h x y : Int),
        st.chain_ ≠ 0 → 2 ≤ st.parallel_ →
        w.tdiv st.chain_ ≠ 0 → h.tdiv st.parallel_ ≠ 0 →
        (ReorderPixelMapper.MapVisibleToMatrix st w h x y).isSome = true) := by
  refine ⟨by decide, ?_, ?_⟩
  · intro w h x y hw hh hx hy
    simp [ReorderPixelMapper.MapVisibleToMatrix,
      ReorderPixelMapper.MapVisibleToMatrixCached, cdiv, cmod, hw, hh,
      Int.tdiv_one, hx, hy, assocFind]
  · intro st w h x y hc hp2 hpc hpr
    have hp : st.parallel_ ≠ 0 := by omega
    have hp1 : st.parallel_ - 1 ≠ 0 := by omega
    simp [ReorderPixelMapper.MapVisibleToMatrix,
      ReorderPixelMapper.MapVisibleToMatrixCached, cdiv, cmod, hc, hp, hpc, hpr, hp1]
    split
    · split
      · split <;> simp
      · split <;> simp_all
    · simp

/-- Witness for C5: on a 2×1 matrix the remapped pixel (0, 0) hits the
division by zero (`none`); with parallel = 2 instead, the same pixel is
well-defined. -/
theorem claim_C5_witness :
    ReorderPixelMapper.MapVisibleToMatrix ⟨2, 1, [(0, 1)]⟩ 2 1 0 0 = none ∧
      (ReorderPixelMapper.MapVisibleToMatrix ⟨2, 2, [(0, 1)]⟩ 2 2 0 0).isSome
        = true :=
  ⟨claim_C5.2.1 2 1 0 0 (by decide) (by decide) (by decide) (by decide),
   claim_C5.2.2 ⟨2, 2, [(0, 1)]⟩ 2 2 0 0 (by decide) (by decide) (by decide) (by decide)⟩

/-! ## Partial-success parsing (claim C6) -/

/-- A "panelIndex|angle" pair that Rotate-panel's SetParameters skips
without touching the table: a non-digit character in either sub-token, or
an out-of-range panel index. -/
def rpPairSkipped (panel_count : Int) (t1 t2 : List Char) : Prop :=
  t1.all Char.isDigit = false ∨
    (t1.all Char.isDigit = true ∧ atoiDigits t1 > panel_count - 1) ∨
    t2.all Char.isDigit = false

/-- A "fromIndex|toIndex" pair that Reorder's SetParameters skips without
touching the table: a non-digit character in either sub-token, or an
out-of-range index on either side. -/
def roPairSkipped (panel_count : Int) (t1 t2 : List Char) : Prop :=
  t1.all Char.isDigit = false ∨ t2.all Char.isDigit = false ∨
    (t1.all Char.isDigit = true ∧ atoiDigits t1 > panel_count - 1) ∨
    (t2.all Char.isDigit = true ∧ atoiDigits t2 > panel_count - 1)

/-- Processing a skipped Rotate-panel pair leaves the table unchanged. -/
theorem rpProcessToken_skip (panel_count : Int) (panels : List (Int × Int))
    (b t1 t2 : List Char) (hsplit : tokensOf '|' b = [t1, t2])
    (hb : rpPairSkipped panel_count t1 t2) :
    RotatePanelPixelMapper.processToken panel_count panels b = panels := by
  unfold RotatePanelPixelMapper.processToken
  rw [hsplit]
  rcases hb with h1 | ⟨hd, hr⟩ | h2
  · simp [RotatePanelPixelMapper.processSubtokens, h1]
  · simp [RotatePanelPixelMapper.processSubtokens, hd, hr]
  · by_cases hd : t1.all Char.isDigit
    · by_cases hr : atoiDigits t1 > panel_count - 1
      · simp [RotatePanelPixelMapper.processSubtokens, hd, hr]
      · simp [RotatePanelPixelMapper.processSubtokens, hd, hr, h2]
    · simp [RotatePanelPixelMapper.processSubtokens, hd]

/-- Processing a skipped Reorder pair leaves the table unchanged. -/
theorem roProcessToken_skip (panel_count : Int) (panels : List (Int × Int))
    (b t1 t2 : List Char) (hsplit : tokensOf '|' b = [t1, t2])
    (hb : roPairSkipped panel_count t1 t2) :
    ReorderPixelMapper.processToken panel_count panels b = panels := by
  unfold ReorderPixelMapper.processToken
  rw [hsplit]
  rcases hb with h1 | h2 | ⟨hd, hr⟩ | ⟨hd2, hr2⟩
  · simp [ReorderPixelMapper.processSubtokens, h1]
  · by_cases hd : t1.all Char.isDigit
    · by_cases hr : atoiDigits t1 > panel_count - 1
      · simp [ReorderPixelMapper.processSubtokens, hd, hr]
      · simp [ReorderPixelMapper.processSubtokens, hd, hr, h2]
    · simp [ReorderPixelMapper.processSubtokens, hd]
  · simp [ReorderPixelMapper.processSubtokens, hd, hr]
  · by_cases hd : t1.all Char.isDigit
    · by_cases hr : atoiDigits t1 > panel_count - 1
      · simp [ReorderPixelMapper.processSubtokens, hd, hr]
      · simp [ReorderPixelMapper.processSubtokens, hd, hr, hd2, hr2]
    · simp [ReorderPixelMapper.processSubtokens, hd]

/-- Dropping a skipped pair from the token list does not change the
Rotate-panel parse result. -/
theorem rpParseParam_skip (panel_count : Int) (l1 l2 : List (List Char))
    (b t1 t2 : List Char) (hsplit : tokensOf '|' b = [t1, t2])
    (hb : rpPairSkipped panel_count t1 t2) :
    RotatePanelPixelMapper.parseParam panel_count (l1 ++ b :: l2)
      = RotatePanelPixelMapper.parseParam panel_count (l1 ++ l2) := by
  unfold RotatePanelPixelMapper.parseParam
  rw [List.foldl_append, List.foldl_append, List.foldl_cons,
    rpProcessToken_skip panel_count _ b t1 t2 hsplit hb]

/-- Dropping a skipped pair from the token list does not change the
Reorder parse result. -/
theorem roParseParam_skip (panel_count : Int) (l1 l2 : List (List Char))
    (b t1 t2 : List Char) (hsplit : tokensOf '|' b = [t1, t2])
    (hb : roPairSkipped panel_count t1 t2) :
    ReorderPixelMapper.parseParam panel_count (l1 ++ b :: l2)
      = ReorderPixelMapper.parseParam panel_count (l1 ++ l2) := by
  unfold ReorderPixelMapper.parseParam
  rw [List.foldl_append, List.foldl_append, List.foldl_cons,
    roProcessToken_skip panel_count _ b t1 t2 hsplit hb]

/-- C6: for Rotate-panel and Reorder, a malformed ","-token (a pair with a
non-digit character) or an out-of-range panel index only skips that pair:
the parse of any token list containing it equals the parse without it, so
every well-formed in-range pair elsewhere is registered identically and
MapVisibleToMatrix behaves identically; and SetParameters reports success
for every parameter string. -/
theorem claim_C6 (chain parallel : Int) (l1 l2 : List (List Char))
    (b t1 t2 : List Char) (hsplit : tokensOf '|' b = [t1, t2])
    (hrp : rpPairSkipped (chain * parallel) t1 t2)
    (hro : roPairSkipped (chain * parallel) t1 t2) :
    RotatePanelPixelMapper.parseParam (chain * parallel) (l1 ++ b :: l2)
        = RotatePanelPixelMapper.parseParam (chain * parallel) (l1 ++ l2) ∧
      ReorderPixelMapper.parseParam (chain * parallel) (l1 ++ b :: l2)
        = ReorderPixelMapper.parseParam (chain * parallel) (l1 ++ l2) ∧
      (∀ w h x y : Int,
        RotatePanelPixelMapper.MapVisibleToMatrix
            ⟨chain, parallel,
              RotatePanelPixelMapper.parseParam (chain * parallel) (l1 ++ b :: l2)⟩
            w h x y
          = RotatePanelPixelMapper.MapVisibleToMatrix
            ⟨chain, parallel,
              RotatePanelPixelMapper.parseParam (chain * parallel) (l1 ++ l2)⟩
            w h x y) ∧
      (∀ w h x y : Int,
        ReorderPixelMapper.MapVisibleToMatrix
            ⟨chain, parallel,
              ReorderPixelMapper.parseParam (chain * parallel) (l1 ++ b :: l2)⟩
            w h x y
          = ReorderPixelMapper.MapVisibleToMatrix
            ⟨chain, parallel,
              ReorderPixelMapper.parseParam (chain * parallel) (l1 ++ l2)⟩
            w h x y) ∧
      (∀ p : Option String,
        (RotatePanelPixelMapper.SetParameters chain parallel p).1 = true) ∧
      (∀ p : Option String,
        (ReorderPixelMapper.SetParameters chain parallel p).1 = true) := by
  have h1 := rpParseParam_skip (chain * parallel) l1 l2 b t1 t2 hsplit hrp
  have h2 := roParseParam_skip (chain * parallel) l1 l2 b t1 t2 hsplit hro
  exact ⟨h1, h2, fun w h x y => by rw [h1], fun w h x y => by rw [h2],
    fun p => rfl, fun p => rfl⟩

/-- Witness for C6: with chain = parallel = 2, the malformed pair "2|x"
between the good pairs "0|90" and "3|180" is skipped, and both parses and
both maps agree with the parse without it. -/
theorem claim_C6_witness :
    RotatePanelPixelMapper.parseParam (2 * 2)
        ([['0', '|', '9', '0']] ++ ['2', '|', 'x'] :: [['3', '|', '1', '8', '0']])
        = RotatePanelPixelMapper.parseParam (2 * 2)
          ([['0', '|', '9', '0']] ++ [['3', '|', '1', '8', '0']]) ∧
      ReorderPixelMapper.parseParam (2 * 2)
        ([['0', '|', '9', '0']] ++ ['2', '|', 'x'] :: [['3', '|', '1', '8', '0']])
        = ReorderPixelMapper.parseParam (2 * 2)
          ([['0', '|', '9', '0']] ++ [['3', '|', '1', '8', '0']]) ∧
      (∀ w h x y : Int,
        RotatePanelPixelMapper.MapVisibleToMatrix
            ⟨2, 2, RotatePanelPixelMapper.parseParam (2 * 2)
              ([['0', '|', '9', '0']] ++ ['2', '|', 'x'] :: [['3', '|', '1', '8', '0']])⟩
            w h x y
          = RotatePanelPixelMapper.MapVisibleToMatrix
            ⟨2, 2, RotatePanelPixelMapper.parseParam (2 * 2)
              ([['0', '|', '9', '0']] ++ [['3', '|', '1', '8', '0']])⟩
            w h x y) ∧
      (∀ w h x y : Int,
        ReorderPixelMapper.MapVisibleToMatrix
            ⟨2, 2, ReorderPixelMapper.parseParam (2 * 2)
              ([['0', '|', '9', '0']] ++ ['2', '|', 'x'] :: [['3', '|', '1', '8', '0']])⟩
            w h x y
          = ReorderPixelMapper.MapVisibleToMatrix
            ⟨2, 2, ReorderPixelMapper.parseParam (2 * 2)
              ([['0', '|', '9', '0']] ++ [['3', '|', '1', '8', '0']])⟩
            w h x y) ∧
      (∀ p : Option String,
        (RotatePanelPixelMapper.SetParameters 2 2 p).1 = true) ∧
      (∀ p : Option String,
        (ReorderPixelMapper.SetParameters 2 2 p).1 = true) :=
  claim_C6 2 2 [['0', '|', '9', '0']] [['3', '|', '1', '8', '0']]
    ['2', '|', 'x'] ['2'] ['x'] (by decide)
    (by unfold rpPairSkipped; decide) (by unfold roPairSkipped; decide)
